import Mathlib

/-!
Verification of the llm-splitter browser extension core, shallowly embedded
from the TypeScript sources:

* `src/background/service-worker.ts` — geometry planner
  (`calculateWindowPositions`), display measurement (`getScreenDimensions`),
  the two-phase window orchestration and the `handleQuerySubmit` entry point;
* `src/shared/storage.ts` (embedded inside `src/shared/constants/index.ts`)
  — `getStorageData` / `setStorageData` / `addQueryToHistory`;
* `src/shared/providers.ts` — `DEFAULT_PROVIDERS`;
* `src/content-scripts/query-injector.ts` — the page adapter `injectQuery`
  and its message listener.

Machine numbers are modelled as `Int`/`Nat` (Chrome screen geometry and ids
are integral; JavaScript `Math.floor(a / b)` for a positive integer divisor
`b` is `Int.fdiv a b`, and `Math.round` is the identity on integers).
Effectful Chrome APIs are modelled by explicit environment records whose
fields give the result of each successive external call; a rejected
JavaScript promise is an `Except.error`.
-/

namespace LLMSplitter

/-- A rectangle with integer coordinates.  Used both for the screen bounds
passed to the geometry planner (`{width, height, left, top}` in the source)
and for the `WindowPosition` records it produces. -/
structure Rect where
  left : Int
  top : Int
  width : Int
  height : Int
deriving DecidableEq, Repr, Inhabited

/-- The `defaultLayout` setting: `'horizontal' | 'grid' | 'vertical'`. -/
inductive Layout
  | horizontal
  | grid
  | vertical
deriving DecidableEq, Repr, Inhabited

/-- `calculateWindowPositions` from `service-worker.ts`.

For `layout === 'grid' && providerCount === 4` it produces the 2×2 grid of
half-width/half-height rectangles; otherwise it produces `providerCount`
vertical strips of width `Math.floor(screenWidth / providerCount)`.
`Math.floor` on an integer quotient is `Int.fdiv`; the `Math.round` calls
are the identity because their arguments are integers here. -/
def calculateWindowPositions (screen : Rect) (providerCount : Nat)
    (layout : Layout) : List Rect :=
  if layout = Layout.grid ∧ providerCount = 4 then
    let halfWidth := Int.fdiv screen.width 2
    let halfHeight := Int.fdiv screen.height 2
    [⟨screen.left, screen.top, halfWidth, halfHeight⟩,
     ⟨screen.left + halfWidth, screen.top, halfWidth, halfHeight⟩,
     ⟨screen.left, screen.top + halfHeight, halfWidth, halfHeight⟩,
     ⟨screen.left + halfWidth, screen.top + halfHeight, halfWidth, halfHeight⟩]
  else
    let windowWidth := Int.fdiv screen.width providerCount
    (List.range providerCount).map fun (i : Nat) =>
      { left := screen.left + (i : Int) * windowWidth
        top := screen.top
        width := windowWidth
        height := screen.height }

/-- `x` lies in the horizontal extent `[left, left + width)` of `r`. -/
def rectCoversX (r : Rect) (x : Int) : Bool :=
  decide (r.left ≤ x) && decide (x < r.left + r.width)

/-- Some rectangle in `rs` covers horizontal coordinate `x`. -/
def stripsCoverX (rs : List Rect) (x : Int) : Bool :=
  rs.any fun r => rectCoversX r x

/-- The point `(x, y)` lies inside rectangle `r`. -/
def rectCovers (r : Rect) (x y : Int) : Bool :=
  rectCoversX r x && decide (r.top ≤ y) && decide (y < r.top + r.height)

/-- How many rectangles of `rs` contain the point `(x, y)`. -/
def coverCount (rs : List Rect) (x y : Int) : Nat :=
  rs.countP fun r => rectCovers r x y

/-! ## Shared storage layer

Embedded from the storage module inside `src/shared/constants/index.ts`
(`getStorageData` / `setStorageData` / `addQueryToHistory`) and
`src/shared/providers.ts` (`DEFAULT_PROVIDERS`).  The `chrome.storage.local`
cell holding the `storageData` key is modelled as
`Option PartialStorageData`: `none` when nothing was ever stored, and a
record with optional fields otherwise (older writers may have stored only
some of the fields, which `getStorageData` merges with defaults). -/

/-- ECMAScript `String.prototype.trim` on the character sequence:
strip leading and trailing whitespace. -/
def trimChars (l : List Char) : List Char :=
  ((l.dropWhile Char.isWhitespace).reverse.dropWhile Char.isWhitespace).reverse

/-- JavaScript `query.trim()`, as a structurally computable function
(Lean's whitespace class stands in for ECMAScript's). -/
def jsTrim (s : String) : String := ⟨trimChars s.data⟩

/-- A provider record (`Provider` in `src/shared/types.ts`). -/
structure Provider where
  id : String
  name : String
  newChatUrl : String
  inputSelector : String
  submitSelector : String
  enabled : Bool
  urlPattern : String
deriving DecidableEq, Repr, Inhabited

/-- User settings (`Settings` in `src/shared/types.ts`).  `maxHistoryItems`
is a non-negative integer (the stored setting is a count). -/
structure Settings where
  maxHistoryItems : Nat
  keyboardShortcut : String
  defaultLayout : Layout
deriving DecidableEq, Repr

/-- The full stored record (`StorageData` in `src/shared/types.ts`). -/
structure StorageData where
  providers : List Provider
  queryHistory : List String
  settings : Settings
deriving DecidableEq, Repr

/-- A possibly partially-populated stored settings object
(`Partial<Settings>`): absent fields are `none`. -/
structure PartialSettings where
  maxHistoryItems : Option Nat := none
  keyboardShortcut : Option String := none
  defaultLayout : Option Layout := none
deriving DecidableEq, Repr

/-- A possibly partially-populated stored record (`Partial<StorageData>`). -/
structure PartialStorageData where
  providers : Option (List Provider) := none
  queryHistory : Option (List String) := none
  settings : Option PartialSettings := none
deriving DecidableEq, Repr

/-- `DEFAULT_PROVIDERS` from `src/shared/providers.ts`. -/
def DEFAULT_PROVIDERS : List Provider :=
  [{ id := "chatgpt", name := "ChatGPT", newChatUrl := "https://chatgpt.com/",
     inputSelector := "#prompt-textarea",
     submitSelector := "[data-testid=\x22send-button\x22]",
     enabled := true, urlPattern := "chatgpt.com" },
   { id := "claude", name := "Claude", newChatUrl := "https://claude.ai/new",
     inputSelector := "[contenteditable=\x22true\x22]",
     submitSelector := "[aria-label=\x22Send Message\x22]",
     enabled := true, urlPattern := "claude.ai" },
   { id := "gemini", name := "Gemini", newChatUrl := "https://gemini.google.com/app",
     inputSelector := ".ql-editor",
     submitSelector := "[aria-label=\x22Send message\x22]",
     enabled := true, urlPattern := "gemini.google.com" },
   { id := "grok", name := "Grok", newChatUrl := "https://grok.com/",
     inputSelector := "textarea",
     submitSelector := "[aria-label=\x22Submit\x22]",
     enabled := true, urlPattern := "grok.com" }]

/-- `DEFAULT_STORAGE_DATA` from the storage module. -/
def DEFAULT_STORAGE_DATA : StorageData :=
  { providers := DEFAULT_PROVIDERS
    queryHistory := []
    settings :=
      { maxHistoryItems := 50
        keyboardShortcut := "Ctrl+Shift+Q"
        defaultLayout := Layout.grid } }

/-- The settings-merge `{ ...DEFAULT_STORAGE_DATA.settings, ...stored.settings }`:
each field comes from the stored partial settings when present, from the
default otherwise (spreading `undefined` adds nothing). -/
def mergeSettings (stored : Option PartialSettings) : Settings :=
  match stored with
  | none => DEFAULT_STORAGE_DATA.settings
  | some s =>
    { maxHistoryItems := s.maxHistoryItems.getD DEFAULT_STORAGE_DATA.settings.maxHistoryItems
      keyboardShortcut := s.keyboardShortcut.getD DEFAULT_STORAGE_DATA.settings.keyboardShortcut
      defaultLayout := s.defaultLayout.getD DEFAULT_STORAGE_DATA.settings.defaultLayout }

/-- `getStorageData`: read the cell and merge with defaults for missing
fields.  (`stored.queryHistory ? [...] : []` yields the stored value when
present — an empty array is truthy — and `[]` otherwise, i.e. `getD []`.
The fresh-copy spreads are identities in a pure model.) -/
def getStorageData (cell : Option PartialStorageData) : StorageData :=
  match cell with
  | none => DEFAULT_STORAGE_DATA
  | some stored =>
    { providers := stored.providers.getD DEFAULT_PROVIDERS
      queryHistory := stored.queryHistory.getD []
      settings := mergeSettings stored.settings }

/-- A fully-populated record viewed as the partial record it is stored as. -/
def toStoredPartial (data : StorageData) : PartialStorageData :=
  { providers := some data.providers
    queryHistory := some data.queryHistory
    settings := some
      { maxHistoryItems := some data.settings.maxHistoryItems
        keyboardShortcut := some data.settings.keyboardShortcut
        defaultLayout := some data.settings.defaultLayout } }

/-- `setStorageData`: overwrite the cell with the full record. -/
def setStorageData (data : StorageData) : Option PartialStorageData :=
  some (toStoredPartial data)

/-- `addQueryToHistory` from the storage module: trim, no-op when the
trimmed query is empty, drop existing occurrences, prepend, truncate to
`maxHistoryItems` (`Array.prototype.slice(0, maxItems)` is `List.take`),
and store the updated record. -/
def addQueryToHistory (query : String) (cell : Option PartialStorageData) :
    Option PartialStorageData :=
  let trimmedQuery := jsTrim query
  if trimmedQuery = "" then
    cell
  else
    let data := getStorageData cell
    let filteredHistory := data.queryHistory.filter fun q => q ≠ trimmedQuery
    let newHistory := trimmedQuery :: filteredHistory
    let maxItems := data.settings.maxHistoryItems
    setStorageData { data with queryHistory := newHistory.take maxItems }

/-- A concrete storage cell holding only a one-element history. -/
def sampleHistoryCell : Option PartialStorageData :=
  some { providers := none, queryHistory := some ["hello"], settings := none }

/-! ## Window orchestrator

Embedded from `src/background/service-worker.ts`.  Each Chrome API the
orchestrator awaits is modelled by an environment field giving the result of
each successive call; a rejected promise is `Except.error ()`.  Real-time
waits (`setTimeout` delays, the 15 s page-load deadline) carry no observable
state beyond loop iteration counts, so sleeps are elided and the wall-clock
page-load deadline is a `fuel : Nat` poll bound. -/

/-- One entry of `chrome.system.display.getInfo()`. -/
structure Display where
  isPrimary : Bool
  workArea : Rect
deriving DecidableEq, Repr

/-- The hard-coded fallback `{width: 1920, height: 1080, left: 0, top: 0}`. -/
def fallbackScreen : Rect := { left := 0, top := 0, width := 1920, height := 1080 }

/-- `getScreenDimensions`: the primary display's work area (first display
when none is marked primary), or the fallback when the display query throws
or returns no displays. -/
def getScreenDimensions (displays : Except Unit (List Display)) : Rect :=
  match displays with
  | Except.error _ => fallbackScreen
  | Except.ok ds =>
    match ds with
    | [] => fallbackScreen
    | d :: _ => ((ds.find? fun d2 => d2.isPrimary).getD d).workArea

/-- A tab object inside a `chrome.windows.create` result. -/
structure ChromeTab where
  id : Option Nat
deriving DecidableEq, Repr

/-- A `chrome.windows.create` result: the `id` and `tabs` fields may be
absent. -/
structure ChromeWindow where
  id : Option Nat
  tabs : Option (List ChromeTab)
deriving DecidableEq, Repr

/-- The `CreatedWindow` record of the source. -/
structure CreatedWindow where
  windowId : Nat
  tabId : Nat
  provider : Provider
deriving DecidableEq, Repr

/-- Per-window Chrome API behaviour: the `chrome.windows.create` result and
the `chrome.windows.get` / `chrome.windows.update` results of each
successive position-verification attempt. -/
structure WindowEnv where
  create : Except Unit ChromeWindow
  bounds : Nat → Except Unit Rect
  update : Nat → Except Unit Unit

/-- What the content script answers to one `PING`. -/
inductive PingReply
  | pong
  | other
deriving DecidableEq, Repr

/-- Per-tab Chrome API behaviour: the load status of each successive
`chrome.tabs.get` poll (`true` = `'complete'`), the result of each
successive `PING` (`Except.error` = `sendMessage` threw, `none` = reply
without a type, `some` = typed reply), and the `INJECT_QUERY` send outcome
(whose rejection the source catches and only logs). -/
structure TabEnv where
  status : Nat → Except Unit Bool
  ping : Nat → Except Unit (Option PingReply)
  inject : Except Unit Unit

/-- The whole environment of one `handleQuerySubmit` run: the storage cell,
the display query, and the Chrome behaviour of the `i`-th created window
and of the tab with a given id. -/
structure Env where
  stored : Option PartialStorageData
  displays : Except Unit (List Display)
  windows : Nat → WindowEnv
  tabs : Nat → TabEnv

/-- Observable side effects of a `handleQuerySubmit` run. -/
inductive Event
  | storageRead
  | displayQuery
  | windowCreate (index : Nat)
  | injectSend (tabId : Nat) (query : String)
deriving DecidableEq, Repr

/-- The loop of `verifyAndCorrectPosition`: read the window's actual bounds;
succeed when each dimension is within the 5 px tolerance, otherwise issue a
correcting `chrome.windows.update` and retry; give up (`false`) after
`maxRetries` attempts. -/
def verifyAndCorrectPositionLoop (w : WindowEnv) (expected : Rect) :
    Nat → Nat → Except Unit Bool
  | _, 0 => Except.ok false
  | attempt, remaining + 1 => do
    let actual ← w.bounds attempt
    if (actual.left - expected.left).natAbs ≤ 5 ∧
        (actual.top - expected.top).natAbs ≤ 5 ∧
        (actual.width - expected.width).natAbs ≤ 5 ∧
        (actual.height - expected.height).natAbs ≤ 5 then
      Except.ok true
    else do
      let _ ← w.update attempt
      verifyAndCorrectPositionLoop w expected (attempt + 1) remaining

/-- `verifyAndCorrectPosition` with its default retry bound. -/
def verifyAndCorrectPosition (w : WindowEnv) (expected : Rect)
    (maxRetries : Nat := 3) : Except Unit Bool :=
  verifyAndCorrectPositionLoop w expected 0 maxRetries

/-- `createAndPositionWindow`: create the window (a falsy — absent or 0 —
`window.id` yields `null`), verify/correct its position (result only
logged), and require a first tab with a truthy id; otherwise `null`. -/
def createAndPositionWindow (w : WindowEnv) (provider : Provider)
    (position : Rect) : Except Unit (Option CreatedWindow) := do
  let window ← w.create
  match window.id with
  | none => pure none
  | some 0 => pure none
  | some (wid + 1) => do
    let _ ← verifyAndCorrectPosition w position
    match window.tabs with
    | none => pure none
    | some [] => pure none
    | some (firstTab :: _) =>
      match firstTab.id with
      | none => pure none
      | some 0 => pure none
      | some (tid + 1) =>
        pure (some { windowId := wid + 1, tabId := tid + 1, provider := provider })

/-- Phase 1 of `handleQuerySubmit`: sequentially create and position one
window per selected provider (the 50 ms settling sleeps are elided);
windows that fail to create are skipped, a thrown creation aborts the
phase.  Returns the created windows and the creation events. -/
def phase1Go (windows : Nat → WindowEnv) (selected : List Provider)
    (positions : List Rect) :
    Nat → Nat → Except Unit (List CreatedWindow × List Event)
  | _, 0 => Except.ok ([], [])
  | i, remaining + 1 => do
    let created ← createAndPositionWindow (windows i) (selected.getD i default)
      (positions.getD i default)
    let rest ← phase1Go windows selected positions (i + 1) remaining
    match created with
    | some cw => Except.ok (cw :: rest.1, Event.windowCreate i :: rest.2)
    | none => Except.ok (rest.1, Event.windowCreate i :: rest.2)

/-- Phase 1 over all selected providers. -/
def phase1 (windows : Nat → WindowEnv) (selected : List Provider)
    (positions : List Rect) : Except Unit (List CreatedWindow × List Event) :=
  phase1Go windows selected positions 0 selected.length

/-- The polling loop of `waitForTabLoad`: re-read the tab until its status
is `'complete'` or the deadline passes (then resolve anyway); a thrown
`chrome.tabs.get` rejects. -/
def waitForTabLoadLoop (status : Nat → Except Unit Bool) :
    Nat → Nat → Except Unit Unit
  | j, 0 => do
    let _ ← status j
    pure ()
  | j, remaining + 1 => do
    let complete ← status j
    if complete then pure () else waitForTabLoadLoop status (j + 1) remaining

/-- `waitForTabLoad`, with `fuel` standing for the number of 100 ms polls
the 15 s deadline allows. -/
def waitForTabLoad (status : Nat → Except Unit Bool) (fuel : Nat) :
    Except Unit Unit :=
  waitForTabLoadLoop status 0 fuel

/-- The loop of `waitForContentScript`: send `PING`s until one answers
`PONG` (thrown sends and non-`PONG` replies mean "not ready yet, retry").
Returns whether a `PONG` arrived together with the number of `PING`s sent
(the second component instruments the source's loop count). -/
def waitForContentScriptLoop (ping : Nat → Except Unit (Option PingReply)) :
    Nat → Nat → Bool × Nat
  | _, 0 => (false, 0)
  | i, remaining + 1 =>
    match ping i with
    | Except.ok (some PingReply.pong) => (true, 1)
    | _ =>
      let rest := waitForContentScriptLoop ping (i + 1) remaining
      (rest.1, rest.2 + 1)

/-- `waitForContentScript` with its default bounds (20 attempts, 250 ms
apart; the sleep itself is elided). -/
def waitForContentScript (ping : Nat → Except Unit (Option PingReply))
    (maxAttempts : Nat := 20) (intervalMs : Nat := 250) : Bool × Nat :=
  waitForContentScriptLoop ping 0 maxAttempts

/-- Phase 2 for one created window (`waitAndInjectQuery`): wait for the tab
to load, handshake with the content script, and abandon the destination
when the handshake never succeeds; otherwise send `INJECT_QUERY` (a
rejected send is caught and only logged).  Returns the injection events. -/
def waitAndInjectQuery (tabs : Nat → TabEnv) (cw : CreatedWindow)
    (query : String) (fuel : Nat) : Except Unit (List Event) := do
  let t := tabs cw.tabId
  let _ ← waitForTabLoad t.status fuel
  let isReady := (waitForContentScript t.ping).1
  if !isReady then
    pure []
  else do
    let _ := t.inject
    pure [Event.injectSend cw.tabId query]

/-- Phase 2 over all created windows.  The source runs them through
`Promise.all`, which succeeds iff every branch does; the event interleaving
is immaterial here, so the branches are folded in order. -/
def phase2 (tabs : Nat → TabEnv) (query : String) (fuel : Nat) :
    List CreatedWindow → Except Unit (List Event)
  | [] => Except.ok []
  | cw :: rest => do
    let events ← waitAndInjectQuery tabs cw query fuel
    let eventsRest ← phase2 tabs query fuel rest
    Except.ok (events ++ eventsRest)

/-- The uniform `{success, error?}` response shape. -/
structure MessageResponse where
  success : Bool
  error : Option String
deriving DecidableEq, Repr

/-- The payload of a `SUBMIT_QUERY` message. -/
structure QueryPayload where
  query : String
  providerIds : List String
deriving DecidableEq, Repr

/-- The provider-resolution loop of `handleQuerySubmit`: look each
requested id up in the persisted provider list, keeping the hits in request
order and dropping the misses. -/
def resolveProviders (providers : List Provider) (providerIds : List String) :
    List Provider :=
  providerIds.filterMap fun id => providers.find? fun p => p.id = id

/-- The providers `handleQuerySubmit` selects for a request. -/
def hqsSelected (env : Env) (payload : QueryPayload) : List Provider :=
  resolveProviders (getStorageData env.stored).providers payload.providerIds

/-- The window positions `handleQuerySubmit` plans for a request. -/
def hqsPositions (env : Env) (payload : QueryPayload) : List Rect :=
  calculateWindowPositions (getScreenDimensions env.displays)
    (hqsSelected env payload).length
    (getStorageData env.stored).settings.defaultLayout

/-- `handleQuerySubmit`: validate, resolve, measure, plan, then the
two-phase fan-out.  The interpolated error detail of
`Failed to open windows: ...` is elided.  The second component is the trace
of observable effects (dropped on the aborted branches, which C4/C6 do not
touch). -/
def handleQuerySubmit (env : Env) (fuel : Nat) (payload : QueryPayload) :
    MessageResponse × List Event :=
  if jsTrim payload.query = "" then
    ({ success := false, error := some ("Query cannot be empty") }, [])
  else if payload.providerIds = [] then
    ({ success := false, error := some ("At least one provider must be selected") }, [])
  else
    let selectedProviders := hqsSelected env payload
    if selectedProviders = [] then
      ({ success := false, error := some ("No valid providers found") },
       [Event.storageRead])
    else
      let positions := hqsPositions env payload
      match phase1 env.windows selectedProviders positions with
      | Except.error _ =>
        ({ success := false, error := some ("Failed to open windows") },
         [Event.storageRead, Event.displayQuery])
      | Except.ok (created, events1) =>
        match phase2 env.tabs (jsTrim payload.query) fuel created with
        | Except.error _ =>
          ({ success := false, error := some ("Failed to open windows") },
           [Event.storageRead, Event.displayQuery] ++ events1)
        | Except.ok events2 =>
          ({ success := true, error := none },
           [Event.storageRead, Event.displayQuery] ++ events1 ++ events2)

/-- The call did not throw. -/
def exceptIsOk {ε α : Type} (e : Except ε α) : Bool :=
  match e with
  | Except.ok _ => true
  | Except.error _ => false

/-- A concrete environment: default storage, an empty display list, window
creations that succeed with window id 1 / tab id 7, immediate tab loads,
and a content script that never answers a `PING`. -/
def sampleEnv : Env :=
  { stored := none
    displays := Except.ok []
    windows := fun _ =>
      { create := Except.ok { id := some 1, tabs := some [{ id := some 7 }] }
        bounds := fun _ => Except.ok fallbackScreen
        update := fun _ => Except.ok () }
    tabs := fun _ =>
      { status := fun _ => Except.ok true
        ping := fun _ => Except.error ()
        inject := Except.ok () } }

/-- `sampleEnv` with a persisted provider list holding a single, disabled
provider. -/
def disabledProviderEnv : Env :=
  { sampleEnv with
    stored := some
      { providers := some
          [{ id := "claude", name := "Claude",
             newChatUrl := "https://claude.ai/new",
             inputSelector := "[contenteditable=\x22true\x22]",
             submitSelector := "[aria-label=\x22Send Message\x22]",
             enabled := false, urlPattern := "claude.ai" }]
        queryHistory := none
        settings := none } }

/-- `sampleEnv` with a throwing display query. -/
def errorDisplaysEnv : Env :=
  { sampleEnv with displays := Except.error () }

/-! ## Page adapter (content script)

Embedded from `src/content-scripts/query-injector.ts`.  The DOM is the
adapter's environment: what matters to the control flow is whether each
step finds its element or throws, so a `PageEnv` records the outcomes of
the successive steps of one injection attempt. -/

/-- Outcomes of the steps of one injection attempt: whether
`waitForElement(inputSelector)` finds an element before the detection
timeout (`none` = timed out), whether entering the text throws, whether
`waitForElement(submitSelector)` finds the submit control, and whether the
submit-click sequence throws.  Element identity is irrelevant to the reply,
so a found element is `Unit`. -/
structure PageEnv where
  inputEl : Option Unit
  enterTextResult : Except String Unit
  submitEl : Option Unit
  clickResult : Except String Unit

/-- `injectQuery`: locate the input, enter the text, locate the submit
control and click it, all inside one `try`; each failure mode produces its
classified `{success: false}` reply and a thrown step produces the
`Unexpected error` reply. -/
def injectQuery (page : PageEnv)
    (query inputSelector submitSelector : String) : MessageResponse :=
  match page.inputEl with
  | none =>
    { success := false, error := some ("Input element not found: " ++ inputSelector) }
  | some _ =>
    match page.enterTextResult with
    | Except.error e =>
      { success := false, error := some ("Unexpected error: " ++ e) }
    | Except.ok _ =>
      match page.submitEl with
      | none =>
        { success := false, error := some ("Submit button not found: " ++ submitSelector) }
      | some _ =>
        match page.clickResult with
        | Except.error e =>
          { success := false, error := some ("Unexpected error: " ++ e) }
        | Except.ok _ => { success := true, error := none }

/-- A message the content-script listener can receive. -/
inductive ContentInMsg
  | ping
  | injectQueryMsg (query inputSelector submitSelector : String)
deriving DecidableEq, Repr

/-- A reply the content script sends back. -/
inductive ContentOutMsg
  | pongReply
  | response (r : MessageResponse)
deriving DecidableEq, Repr

/-- The `chrome.runtime.onMessage` listener: `PING` is answered with a
synchronous `PONG`; `INJECT_QUERY` runs `injectQuery` and hands its result
to `sendResponse` (the attached rejection fallback also calls
`sendResponse`, so the channel always gets exactly one reply; because
`injectQuery` catches internally, the fallback is unreachable). -/
def onMessageResponses (page : PageEnv) : ContentInMsg → List ContentOutMsg
  | ContentInMsg.ping => [ContentOutMsg.pongReply]
  | ContentInMsg.injectQueryMsg query inputSelector submitSelector =>
    [ContentOutMsg.response (injectQuery page query inputSelector submitSelector)]

/-- A page whose input and submit controls are found and whose steps do not
throw. -/
def readyPage : PageEnv :=
  { inputEl := some ()
    enterTextResult := Except.ok ()
    submitEl := some ()
    clickResult := Except.ok () }

/-! ## Theorems -/

/-- `Math.floor` of a quotient by a natural-number divisor, as Euclidean
division (they agree because the divisor is non-negative). -/
theorem fdiv_natCast_eq_ediv (a : Int) (n : Nat) :
    Int.fdiv a (n : Int) = a / (n : Int) :=
  Int.fdiv_eq_ediv _ (Int.natCast_nonneg n)

/-- Counterexample to C1 as stated: on a screen of width 3 with 2 windows the
strips are 1 wide each, so the column `x = 2` lies inside the screen but
under no strip — the output does not tile the full screen width. -/
theorem calculateWindowPositions_strips_gap_counterexample :
    stripsCoverX (calculateWindowPositions ⟨0, 0, 3, 10⟩ 2 Layout.horizontal) 2 = false ∧
    (0 : Int) ≤ 2 ∧ (2 : Int) < 0 + 3 := by decide

/-- C1 (amended): for `count ∈ {2, 3}` and any layout,
`calculateWindowPositions` returns `count` rectangles, the `i`-th being the
strip of width `floor(screenWidth / count)` and full screen height at left
edge `screenLeft + i * windowWidth`; together the strips cover exactly the
interval of width `count * floor(screenWidth / count)` starting at
`screenLeft` (adjacent, no gaps or overlaps between them), and this equals
the full screen width exactly when `count` divides `screenWidth`. -/
theorem calculateWindowPositions_strips (screen : Rect) (count : Nat)
    (layout : Layout) (hc : count = 2 ∨ count = 3) :
    (calculateWindowPositions screen count layout).length = count ∧
    (∀ i : Nat, i < count →
      (calculateWindowPositions screen count layout).getD i default =
        ⟨screen.left + i * Int.fdiv screen.width count, screen.top,
         Int.fdiv screen.width count, screen.height⟩) ∧
    (∀ x : Int,
      stripsCoverX (calculateWindowPositions screen count layout) x = true ↔
        screen.left ≤ x ∧ x < screen.left + count * Int.fdiv screen.width count) ∧
    ((count : Int) * Int.fdiv screen.width count = screen.width ↔
      screen.width % (count : Int) = 0) := by
  have hne : ¬ (layout = Layout.grid ∧ count = 4) := by
    rcases hc with h | h <;> simp [h]
  have hps : calculateWindowPositions screen count layout =
      (List.range count).map fun i =>
        { left := screen.left + i * Int.fdiv screen.width count
          top := screen.top
          width := Int.fdiv screen.width count
          height := screen.height } := by
    rw [calculateWindowPositions, if_neg hne]
  rw [hps, fdiv_natCast_eq_ediv]
  rcases hc with rfl | rfl <;>
    refine ⟨by simp, ?_, ?_, by omega⟩ <;>
    [skip; skip; skip; skip] <;>
    first
    | (intro i hi
       interval_cases i <;> simp [List.range_succ])
    | (intro x
       simp only [List.range_succ, List.range_zero, List.nil_append,
         List.cons_append, List.map_cons, List.map_nil, stripsCoverX,
         List.any_cons, List.any_nil, rectCoversX, Bool.or_eq_true,
         Bool.and_eq_true, decide_eq_true_eq, Bool.false_eq_true, or_false]
       push_cast
       omega)

/-- Counterexample to C2 as stated: on a 3×3 screen the four grid
rectangles are all 1×1, so the point `(2, 2)` lies inside the screen but in
none of them — the output is not an exact partition of the screen. -/
theorem calculateWindowPositions_grid_gap_counterexample :
    coverCount (calculateWindowPositions ⟨0, 0, 3, 3⟩ 4 Layout.grid) 2 2 = 0 ∧
    rectCovers ⟨0, 0, 3, 3⟩ 2 2 = true := by decide

/-- C2 (amended): for `count = 4` and layout `grid`,
`calculateWindowPositions` returns the four corner rectangles of size
`floor(screenWidth / 2) × floor(screenHeight / 2)`; every point of the
clipped rectangle of size `2·halfWidth × 2·halfHeight` at the screen origin
is covered by exactly one of them, and the clipped rectangle equals the
whole screen exactly when both dimensions are even. -/
theorem calculateWindowPositions_grid (screen : Rect) :
    (calculateWindowPositions screen 4 Layout.grid =
      [⟨screen.left, screen.top,
        Int.fdiv screen.width 2, Int.fdiv screen.height 2⟩,
       ⟨screen.left + Int.fdiv screen.width 2, screen.top,
        Int.fdiv screen.width 2, Int.fdiv screen.height 2⟩,
       ⟨screen.left, screen.top + Int.fdiv screen.height 2,
        Int.fdiv screen.width 2, Int.fdiv screen.height 2⟩,
       ⟨screen.left + Int.fdiv screen.width 2, screen.top + Int.fdiv screen.height 2,
        Int.fdiv screen.width 2, Int.fdiv screen.height 2⟩]) ∧
    (∀ x y : Int,
      coverCount (calculateWindowPositions screen 4 Layout.grid) x y = 1 ↔
        (screen.left ≤ x ∧ x < screen.left + 2 * Int.fdiv screen.width 2 ∧
         screen.top ≤ y ∧ y < screen.top + 2 * Int.fdiv screen.height 2)) ∧
    ((2 * Int.fdiv screen.width 2 = screen.width ∧
      2 * Int.fdiv screen.height 2 = screen.height) ↔
      (screen.width % 2 = 0 ∧ screen.height % 2 = 0)) := by
  have hw : Int.fdiv screen.width 2 = screen.width / 2 :=
    Int.fdiv_eq_ediv _ (by norm_num)
  have hh : Int.fdiv screen.height 2 = screen.height / 2 :=
    Int.fdiv_eq_ediv _ (by norm_num)
  have hps : calculateWindowPositions screen 4 Layout.grid =
      [⟨screen.left, screen.top,
        Int.fdiv screen.width 2, Int.fdiv screen.height 2⟩,
       ⟨screen.left + Int.fdiv screen.width 2, screen.top,
        Int.fdiv screen.width 2, Int.fdiv screen.height 2⟩,
       ⟨screen.left, screen.top + Int.fdiv screen.height 2,
        Int.fdiv screen.width 2, Int.fdiv screen.height 2⟩,
       ⟨screen.left + Int.fdiv screen.width 2, screen.top + Int.fdiv screen.height 2,
        Int.fdiv screen.width 2, Int.fdiv screen.height 2⟩] := by
    rw [calculateWindowPositions, if_pos ⟨rfl, rfl⟩]
  refine ⟨hps, ?_, by rw [hw, hh]; omega⟩
  intro x y
  rw [hps, hw, hh]
  simp only [coverCount, List.countP_cons, List.countP_nil, rectCovers,
    rectCoversX, Bool.and_eq_true, decide_eq_true_eq]
  split_ifs <;> omega

theorem calculateWindowPositions_strips_witness :
    (2 = 2 ∨ 2 = 3) ∧
    (calculateWindowPositions ⟨0, 0, 1920, 1080⟩ 2 Layout.horizontal).length = 2 ∧
    (stripsCoverX (calculateWindowPositions ⟨0, 0, 1920, 1080⟩ 2 Layout.horizontal) 1919 = true ↔
      (0 : Int) ≤ 1919 ∧
      (1919 : Int) < 0 + ((2 : Nat) : Int) * Int.fdiv 1920 ((2 : Nat) : Int)) :=
  ⟨Or.inl rfl,
   (calculateWindowPositions_strips ⟨0, 0, 1920, 1080⟩ 2 Layout.horizontal (Or.inl rfl)).1,
   (calculateWindowPositions_strips ⟨0, 0, 1920, 1080⟩ 2 Layout.horizontal (Or.inl rfl)).2.2.1 1919⟩

/-- Writing a full record and reading it back yields that record. -/
theorem getStorageData_setStorageData (data : StorageData) :
    getStorageData (setStorageData data) = data := rfl

/-- The history after a non-trivial `addQueryToHistory`, explicitly. -/
theorem addQueryToHistory_queryHistory (cell : Option PartialStorageData)
    (query : String) (hne : jsTrim query ≠ "") :
    (getStorageData (addQueryToHistory query cell)).queryHistory =
      (jsTrim query ::
        (getStorageData cell).queryHistory.filter fun q => q ≠ jsTrim query).take
        (getStorageData cell).settings.maxHistoryItems := by
  rw [addQueryToHistory]
  simp only [if_neg hne]
  rw [getStorageData_setStorageData]

/-- Counterexample to C7 as stated: with stored settings
`maxHistoryItems = 0` and history `["a"]`, adding the already-present query
`"a"` leaves it appearing 0 times, not exactly once (the cap truncates the
re-inserted entry away). -/
theorem addQueryToHistory_dedup_counterexample :
    jsTrim ("a") ≠ "" ∧
    jsTrim ("a") ∈ (getStorageData (some
      { providers := none, queryHistory := some ["a"],
        settings := some { maxHistoryItems := some 0, keyboardShortcut := none,
                           defaultLayout := none } })).queryHistory ∧
    ¬ ((getStorageData (addQueryToHistory ("a") (some
      { providers := none, queryHistory := some ["a"],
        settings := some { maxHistoryItems := some 0, keyboardShortcut := none,
                           defaultLayout := none } }))).queryHistory.count
        (jsTrim ("a")) = 1) := by decide

/-- C7 (amended): `addQueryToHistory` with a query trimming to empty leaves
the storage cell unchanged; when `maxHistoryItems ≥ 1`, adding a query whose
trimmed form is already present moves it to the front and it appears exactly
once afterwards; after every add the stored history length never exceeds
`maxHistoryItems`, and eviction removes rearmost entries only (the stored
history is a prefix of the front-inserted, deduplicated sequence). -/
theorem addQueryToHistory_props (cell : Option PartialStorageData)
    (query : String) :
    (jsTrim query = "" → addQueryToHistory query cell = cell) ∧
    (jsTrim query ≠ "" → 1 ≤ (getStorageData cell).settings.maxHistoryItems →
      jsTrim query ∈ (getStorageData cell).queryHistory →
      (getStorageData (addQueryToHistory query cell)).queryHistory.head? =
          some (jsTrim query) ∧
      (getStorageData (addQueryToHistory query cell)).queryHistory.count
          (jsTrim query) = 1) ∧
    (jsTrim query ≠ "" →
      (getStorageData (addQueryToHistory query cell)).queryHistory.length ≤
        (getStorageData cell).settings.maxHistoryItems) ∧
    (jsTrim query ≠ "" →
      (getStorageData (addQueryToHistory query cell)).queryHistory <+:
        jsTrim query ::
          (getStorageData cell).queryHistory.filter fun q => q ≠ jsTrim query) := by
  refine ⟨?_, ?_, ?_, ?_⟩
  · intro h
    rw [addQueryToHistory]
    simp only [if_pos h]
  · intro hne hM hmem
    obtain ⟨m, hm⟩ : ∃ m, (getStorageData cell).settings.maxHistoryItems = m + 1 :=
      ⟨(getStorageData cell).settings.maxHistoryItems - 1, by omega⟩
    rw [addQueryToHistory_queryHistory cell query hne, hm, List.take_succ_cons]
    refine ⟨rfl, ?_⟩
    rw [List.count_cons_self]
    have hzero :
        (((getStorageData cell).queryHistory.filter fun q =>
            q ≠ jsTrim query).take m).count (jsTrim query) = 0 := by
      rw [List.count_eq_zero]
      intro hmem2
      have hf := List.mem_of_mem_take hmem2
      have hp := List.of_mem_filter hf
      simp at hp
    omega
  · intro hne
    rw [addQueryToHistory_queryHistory cell query hne]
    exact List.length_take_le _ _
  · intro hne
    rw [addQueryToHistory_queryHistory cell query hne]
    exact List.take_prefix _ _

theorem addQueryToHistory_props_witness :
    jsTrim (" hello ") ≠ "" ∧
    1 ≤ (getStorageData sampleHistoryCell).settings.maxHistoryItems ∧
    jsTrim (" hello ") ∈ (getStorageData sampleHistoryCell).queryHistory ∧
    (getStorageData (addQueryToHistory (" hello ") sampleHistoryCell)).queryHistory.head? =
        some (jsTrim (" hello ")) ∧
    (getStorageData (addQueryToHistory (" hello ") sampleHistoryCell)).queryHistory.count
        (jsTrim (" hello ")) = 1 :=
  ⟨by decide, by decide, by decide,
   ((addQueryToHistory_props sampleHistoryCell (" hello ")).2.1
      (by decide) (by decide) (by decide)).1,
   ((addQueryToHistory_props sampleHistoryCell (" hello ")).2.1
      (by decide) (by decide) (by decide)).2⟩

/-- C10: `addQueryToHistory` modifies only the `queryHistory` field of the
stored record — the providers and settings observable through
`getStorageData` are unchanged by the call, for every prior storage state
and every query. -/
theorem addQueryToHistory_frame (cell : Option PartialStorageData)
    (query : String) :
    (getStorageData (addQueryToHistory query cell)).providers =
        (getStorageData cell).providers ∧
    (getStorageData (addQueryToHistory query cell)).settings =
        (getStorageData cell).settings := by
  by_cases h : jsTrim query = "" <;>
    simp [addQueryToHistory, h, getStorageData_setStorageData]

theorem exceptIsOk_iff {ε α : Type} (e : Except ε α) :
    exceptIsOk e = true ↔ ∃ a, e = Except.ok a := by
  cases e <;> simp [exceptIsOk]

/-- When no attempt ever gets a `PONG`, the handshake loop exhausts its
budget: it returns `false` after sending one `PING` per allowed attempt. -/
theorem waitForContentScriptLoop_no_pong
    (ping : Nat → Except Unit (Option PingReply))
    (h : ∀ i, ping i ≠ Except.ok (some PingReply.pong)) :
    ∀ n start, waitForContentScriptLoop ping start n = (false, n) := by
  intro n
  induction n with
  | zero => intro start; rfl
  | succ n ih =>
    intro start
    rw [waitForContentScriptLoop]
    cases hp : ping start with
    | error e => simp [ih (start + 1)]
    | ok r =>
      match r with
      | none => simp [ih (start + 1)]
      | some PingReply.other => simp [ih (start + 1)]
      | some PingReply.pong => exact absurd hp (h start)

/-- The handshake loop never sends more `PING`s than its attempt budget. -/
theorem waitForContentScriptLoop_pings_le
    (ping : Nat → Except Unit (Option PingReply)) :
    ∀ n start, (waitForContentScriptLoop ping start n).2 ≤ n := by
  intro n
  induction n with
  | zero => intro start; exact Nat.le_refl 0
  | succ n ih =>
    intro start
    rw [waitForContentScriptLoop]
    cases hp : ping start with
    | error e => simpa using Nat.succ_le_succ (ih (start + 1))
    | ok r =>
      match r with
      | none => simpa using Nat.succ_le_succ (ih (start + 1))
      | some PingReply.other => simpa using Nat.succ_le_succ (ih (start + 1))
      | some PingReply.pong => simp

/-- `waitAndInjectQuery` under a successful tab load: inject exactly when
the handshake succeeded, never throwing. -/
theorem waitAndInjectQuery_eq (tabs : Nat → TabEnv) (cw : CreatedWindow)
    (query : String) (fuel : Nat)
    (hload : waitForTabLoad (tabs cw.tabId).status fuel = Except.ok ()) :
    waitAndInjectQuery tabs cw query fuel =
      if (waitForContentScript (tabs cw.tabId).ping).1 then
        Except.ok [Event.injectSend cw.tabId query]
      else
        Except.ok [] := by
  rw [waitAndInjectQuery, hload]
  by_cases hr : (waitForContentScript (tabs cw.tabId).ping).1 <;>
    simp [hr, Except.bind]

/-- Phase 1 cannot throw when no single window creation throws, and it
records one creation event per selected provider. -/
theorem phase1Go_ok (windows : Nat → WindowEnv) (selected : List Provider)
    (positions : List Rect) :
    ∀ n start,
      (∀ i, start ≤ i → i < start + n →
        exceptIsOk (createAndPositionWindow (windows i) (selected.getD i default)
          (positions.getD i default)) = true) →
      ∃ cws, phase1Go windows selected positions start n =
        Except.ok (cws, (List.range' start n).map Event.windowCreate) := by
  intro n
  induction n with
  | zero => intro start h; exact ⟨[], rfl⟩
  | succ n ih =>
    intro start h
    have h0 := h start (Nat.le_refl start) (by omega)
    rw [exceptIsOk_iff] at h0
    obtain ⟨r, hr⟩ := h0
    obtain ⟨cws, hrec⟩ := ih (start + 1) (fun i h1 h2 => h i (by omega) (by omega))
    rw [phase1Go, hr, hrec]
    cases r with
    | some cw => exact ⟨cw :: cws, rfl⟩
    | none => exact ⟨cws, rfl⟩

/-- Phase 2 cannot throw when every tab load resolves. -/
theorem phase2_ok (tabs : Nat → TabEnv) (query : String) (fuel : Nat)
    (hload : ∀ tid, waitForTabLoad (tabs tid).status fuel = Except.ok ()) :
    ∀ created, ∃ events, phase2 tabs query fuel created = Except.ok events := by
  intro created
  induction created with
  | nil => exact ⟨[], rfl⟩
  | cons cw rest ih =>
    obtain ⟨events, hrest⟩ := ih
    rw [phase2, waitAndInjectQuery_eq tabs cw query fuel (hload cw.tabId)]
    by_cases hr : (waitForContentScript (tabs cw.tabId).ping).1 <;>
      simp [hr, hrest, Except.bind] <;>
      exact ⟨_, rfl⟩

/-- C3: a destination page that never answers the readiness probe does not
fail the request.  (i) With no `PONG` ever, `waitForContentScript` returns
`false` after exactly its 20 allowed `PING`s (and never sends more than 20
in any run); (ii) `waitAndInjectQuery` then completes without throwing and
without sending the injection command; (iii) `handleQuerySubmit` on a valid
request whose window creations and tab-load polls do not throw returns
`{success: true}` whatever the ping responses are — in particular when no
page ever answers. -/
theorem handleQuerySubmit_ping_isolation :
    (∀ ping : Nat → Except Unit (Option PingReply),
      (∀ i, ping i ≠ Except.ok (some PingReply.pong)) →
      waitForContentScript ping = (false, 20)) ∧
    (∀ ping : Nat → Except Unit (Option PingReply),
      (waitForContentScript ping).2 ≤ 20) ∧
    (∀ (tabs : Nat → TabEnv) (cw : CreatedWindow) (query : String) (fuel : Nat),
      waitForTabLoad (tabs cw.tabId).status fuel = Except.ok () →
      (∀ i, (tabs cw.tabId).ping i ≠ Except.ok (some PingReply.pong)) →
      waitAndInjectQuery tabs cw query fuel = Except.ok []) ∧
    (∀ (env : Env) (fuel : Nat) (payload : QueryPayload),
      jsTrim payload.query ≠ "" →
      payload.providerIds ≠ [] →
      hqsSelected env payload ≠ [] →
      (∀ i, i < (hqsSelected env payload).length →
        exceptIsOk (createAndPositionWindow (env.windows i)
          ((hqsSelected env payload).getD i default)
          ((hqsPositions env payload).getD i default)) = true) →
      (∀ tid, waitForTabLoad (env.tabs tid).status fuel = Except.ok ()) →
      (handleQuerySubmit env fuel payload).1 =
        { success := true, error := none }) := by
  refine ⟨?_, ?_, ?_, ?_⟩
  · intro ping h
    exact waitForContentScriptLoop_no_pong ping h 20 0
  · intro ping
    exact waitForContentScriptLoop_pings_le ping 20 0
  · intro tabs cw query fuel hload hping
    rw [waitAndInjectQuery_eq tabs cw query fuel hload]
    rw [show waitForContentScript (tabs cw.tabId).ping = (false, 20) from
      waitForContentScriptLoop_no_pong _ hping 20 0]
    rfl
  · intro env fuel payload hq hp hsel hcreate hload
    obtain ⟨cws, hph1⟩ := phase1Go_ok env.windows (hqsSelected env payload)
      (hqsPositions env payload) (hqsSelected env payload).length 0
      (fun i h1 h2 => hcreate i (by omega))
    obtain ⟨events2, hph2⟩ := phase2_ok env.tabs (jsTrim payload.query) fuel hload cws
    rw [handleQuerySubmit]
    simp only [if_neg hq, if_neg hp, if_neg hsel]
    rw [phase1, hph1]
    dsimp only
    rw [hph2]

/-- C4: a query that is empty or trims to empty is rejected with the
`Query cannot be empty` error, whatever the provider ids, and the run
performs no storage read, window creation, or injection (empty effect
trace). -/
theorem handleQuerySubmit_empty_query (env : Env) (fuel : Nat)
    (payload : QueryPayload) (h : jsTrim payload.query = "") :
    handleQuerySubmit env fuel payload =
      ({ success := false, error := some ("Query cannot be empty") }, []) := by
  rw [handleQuerySubmit]
  simp only [if_pos h]

theorem handleQuerySubmit_ping_isolation_witness :
    waitForContentScript (fun _ => Except.error ()) = (false, 20) ∧
    (handleQuerySubmit sampleEnv 0 { query := "hi", providerIds := ["chatgpt"] }).1 =
      { success := true, error := none } :=
  ⟨handleQuerySubmit_ping_isolation.1 (fun _ => Except.error ())
     (fun i h => by simp at h),
   handleQuerySubmit_ping_isolation.2.2.2 sampleEnv 0
     { query := "hi", providerIds := ["chatgpt"] }
     (by decide) (by decide) (by decide) (by decide) (fun tid => rfl)⟩

/-- An id has a match in the provider list iff `find?` returns one. -/
theorem any_id_eq_find?_isSome (providers : List Provider) (id : String) :
    (providers.any fun p => p.id = id) =
      (providers.find? fun p => p.id = id).isSome := by
  induction providers with
  | nil => rfl
  | cons p rest ih =>
    by_cases h : p.id = id <;> simp [List.find?_cons, h, ih]

/-- Resolution keeps exactly the resolvable ids, in request order. -/
theorem resolveProviders_map_id (providers : List Provider) (ids : List String) :
    (resolveProviders providers ids).map Provider.id =
      ids.filter fun id => providers.any fun p => p.id = id := by
  induction ids with
  | nil => rfl
  | cons a rest ih =>
    cases hf : providers.find? fun p => p.id = a with
    | none =>
      have hany : (providers.any fun p => p.id = a) = false := by
        rw [any_id_eq_find?_isSome, hf]; rfl
      rw [List.filter_cons]
      simp only [hany, Bool.false_eq_true, if_false]
      rw [resolveProviders, List.filterMap_cons, hf]
      exact ih
    | some p =>
      have hid : p.id = a := by simpa using List.find?_some hf
      have hany : (providers.any fun q => q.id = a) = true := by
        rw [any_id_eq_find?_isSome, hf]; rfl
      rw [List.filter_cons]
      simp only [hany, if_true]
      rw [resolveProviders, List.filterMap_cons, hf, List.map_cons, hid]
      exact congrArg (List.cons a) ih

/-- Dropping the unresolvable ids first does not change the resolution. -/
theorem resolveProviders_filter_resolvable (providers : List Provider)
    (ids : List String) :
    resolveProviders providers
        (ids.filter fun id => providers.any fun p => p.id = id) =
      resolveProviders providers ids := by
  induction ids with
  | nil => rfl
  | cons a rest ih =>
    cases hf : providers.find? fun p => p.id = a with
    | none =>
      have hany : (providers.any fun p => p.id = a) = false := by
        rw [any_id_eq_find?_isSome, hf]; rfl
      rw [List.filter_cons]
      simp only [hany, Bool.false_eq_true, if_false]
      conv_rhs => rw [resolveProviders, List.filterMap_cons, hf]
      exact ih
    | some p =>
      have hany : (providers.any fun q => q.id = a) = true := by
        rw [any_id_eq_find?_isSome, hf]; rfl
      rw [List.filter_cons]
      simp only [hany, if_true]
      conv_lhs => rw [resolveProviders, List.filterMap_cons, hf]
      conv_rhs => rw [resolveProviders, List.filterMap_cons, hf]
      exact congrArg (List.cons p) ih

/-- C5: provider resolution.  For a request passing the query and
non-emptiness validations: when no requested id resolves the request fails
with `No valid providers found` after only the storage read; the selected
providers are exactly the resolvable requested ids in request order
(unresolved ids silently dropped); and when at least one id resolves the
run is identical to a run requesting exactly the resolvable subset — no
error is reported for the dropped ids. -/
theorem handleQuerySubmit_resolution (env : Env) (fuel : Nat)
    (payload : QueryPayload)
    (hq : jsTrim payload.query ≠ "") (hp : payload.providerIds ≠ []) :
    (hqsSelected env payload = [] →
      handleQuerySubmit env fuel payload =
        ({ success := false, error := some ("No valid providers found") },
         [Event.storageRead])) ∧
    ((hqsSelected env payload).map Provider.id =
      payload.providerIds.filter fun id =>
        (getStorageData env.stored).providers.any fun p => p.id = id) ∧
    (hqsSelected env payload ≠ [] →
      handleQuerySubmit env fuel payload =
        handleQuerySubmit env fuel
          { query := payload.query
            providerIds := payload.providerIds.filter fun id =>
              (getStorageData env.stored).providers.any fun p => p.id = id }) := by
  refine ⟨?_, resolveProviders_map_id _ _, ?_⟩
  · intro hsel
    rw [handleQuerySubmit]
    simp only [if_neg hq, if_neg hp, if_pos hsel]
  · intro hsel
    have hmap := resolveProviders_map_id (getStorageData env.stored).providers
      payload.providerIds
    have hfilter : payload.providerIds.filter (fun id =>
        (getStorageData env.stored).providers.any fun p => p.id = id) ≠ [] := by
      intro hnil
      rw [hnil] at hmap
      exact hsel (List.map_eq_nil_iff.mp hmap)
    have hsel2 : hqsSelected env
        { query := payload.query
          providerIds := payload.providerIds.filter fun id =>
            (getStorageData env.stored).providers.any fun p => p.id = id } =
        hqsSelected env payload :=
      resolveProviders_filter_resolvable _ _
    have hpos2 : hqsPositions env
        { query := payload.query
          providerIds := payload.providerIds.filter fun id =>
            (getStorageData env.stored).providers.any fun p => p.id = id } =
        hqsPositions env payload := by
      rw [hqsPositions, hqsPositions, hsel2]
    rw [handleQuerySubmit, handleQuerySubmit]
    simp only [if_neg hq, if_neg hp, if_neg hsel, if_neg hfilter, hsel2, hpos2]

theorem handleQuerySubmit_empty_query_witness :
    jsTrim ("   ") = "" ∧
    handleQuerySubmit sampleEnv 0 { query := "   ", providerIds := ["chatgpt"] } =
      ({ success := false, error := some ("Query cannot be empty") }, []) :=
  ⟨by decide,
   handleQuerySubmit_empty_query sampleEnv 0
     { query := "   ", providerIds := ["chatgpt"] } (by decide)⟩

theorem handleQuerySubmit_resolution_witness :
    jsTrim ("hi") ≠ "" ∧ (["nope"] : List String) ≠ [] ∧
    hqsSelected sampleEnv { query := "hi", providerIds := ["nope"] } = [] ∧
    handleQuerySubmit sampleEnv 0 { query := "hi", providerIds := ["nope"] } =
      ({ success := false, error := some ("No valid providers found") },
       [Event.storageRead]) :=
  ⟨by decide, by decide, by decide,
   (handleQuerySubmit_resolution sampleEnv 0
      { query := "hi", providerIds := ["nope"] } (by decide) (by decide)).1
     (by decide)⟩

/-- C6: a requested id that resolves against the persisted provider list is
fanned out even when that provider's `enabled` flag is `false` — selection
filters on id membership only.  The resolved provider is among the selected
ones, and on a run whose window creations and tab loads do not throw, its
creation event is in the trace at its selection index. -/
theorem handleQuerySubmit_ignores_enabled (env : Env) (fuel : Nat)
    (payload : QueryPayload) (id : String) (p : Provider)
    (hq : jsTrim payload.query ≠ "") (hp : payload.providerIds ≠ [])
    (hmem : id ∈ payload.providerIds)
    (hfind : (getStorageData env.stored).providers.find?
      (fun q => q.id = id) = some p)
    (hdisabled : p.enabled = false)
    (hcreate : ∀ i, i < (hqsSelected env payload).length →
      exceptIsOk (createAndPositionWindow (env.windows i)
        ((hqsSelected env payload).getD i default)
        ((hqsPositions env payload).getD i default)) = true)
    (hload : ∀ tid, waitForTabLoad (env.tabs tid).status fuel = Except.ok ()) :
    p ∈ hqsSelected env payload ∧
    (∃ j, ∃ hj : j < (hqsSelected env payload).length,
      (hqsSelected env payload).get ⟨j, hj⟩ = p ∧
      Event.windowCreate j ∈ (handleQuerySubmit env fuel payload).2) := by
  have hpmem : p ∈ hqsSelected env payload := by
    rw [hqsSelected, resolveProviders]
    exact List.mem_filterMap.mpr ⟨id, hmem, hfind⟩
  obtain ⟨⟨j, hj⟩, hget⟩ := List.mem_iff_get.mp hpmem
  have hsel : hqsSelected env payload ≠ [] := by
    intro h
    rw [h] at hpmem
    exact absurd hpmem (List.not_mem_nil p)
  obtain ⟨cws, hph1⟩ := phase1Go_ok env.windows (hqsSelected env payload)
    (hqsPositions env payload) (hqsSelected env payload).length 0
    (fun i h1 h2 => hcreate i (by omega))
  obtain ⟨events2, hph2⟩ := phase2_ok env.tabs (jsTrim payload.query) fuel
    hload cws
  refine ⟨hpmem, j, hj, hget, ?_⟩
  rw [handleQuerySubmit]
  simp only [if_neg hq, if_neg hp, if_neg hsel]
  rw [phase1, hph1]
  dsimp only
  rw [hph2]
  refine List.mem_append.mpr (Or.inl (List.mem_append.mpr (Or.inr ?_)))
  refine List.mem_map.mpr ⟨j, ?_, rfl⟩
  have : j < (hqsSelected env payload).length := hj
  simp [List.mem_range'_1]
  omega

theorem handleQuerySubmit_ignores_enabled_witness :
    ({ id := "claude", name := "Claude", newChatUrl := "https://claude.ai/new",
       inputSelector := "[contenteditable=\x22true\x22]",
       submitSelector := "[aria-label=\x22Send Message\x22]",
       enabled := false, urlPattern := "claude.ai" } : Provider) ∈
      hqsSelected disabledProviderEnv { query := "hi", providerIds := ["claude"] } :=
  (handleQuerySubmit_ignores_enabled disabledProviderEnv 0
    { query := "hi", providerIds := ["claude"] } "claude"
    { id := "claude", name := "Claude", newChatUrl := "https://claude.ai/new",
      inputSelector := "[contenteditable=\x22true\x22]",
      submitSelector := "[aria-label=\x22Send Message\x22]",
      enabled := false, urlPattern := "claude.ai" }
    (by decide) (by decide) (by decide) (by decide) (by decide) (by decide)
    (fun tid => rfl)).1

/-- C9: a display-geometry failure (thrown query or empty display list)
yields the fixed fallback rectangle 1920×1080 at the origin instead of an
error, and a run whose display query throws is identical to a run whose
display query returns the fallback display — the failure never fails the
request. -/
theorem getScreenDimensions_fallback :
    getScreenDimensions (Except.error ()) = fallbackScreen ∧
    getScreenDimensions (Except.ok []) = fallbackScreen ∧
    (∀ (env : Env) (fuel : Nat) (payload : QueryPayload),
      env.displays = Except.error () →
      handleQuerySubmit env fuel payload =
        handleQuerySubmit
          { env with
            displays :=
              Except.ok [{ isPrimary := true, workArea := fallbackScreen }] }
          fuel payload) := by
  refine ⟨rfl, rfl, ?_⟩
  intro env fuel payload hdis
  obtain ⟨s, d, w, t⟩ := env
  dsimp only at hdis ⊢
  subst hdis
  rfl

theorem getScreenDimensions_fallback_witness :
    handleQuerySubmit errorDisplaysEnv 0 { query := "hi", providerIds := ["chatgpt"] } =
      handleQuerySubmit
        { errorDisplaysEnv with
          displays :=
            Except.ok [{ isPrimary := true, workArea := fallbackScreen }] }
        0 { query := "hi", providerIds := ["chatgpt"] } :=
  getScreenDimensions_fallback.2.2 errorDisplaysEnv 0
    { query := "hi", providerIds := ["chatgpt"] } rfl

/-- C8: every `INJECT_QUERY` message gets exactly one reply, namely the
`injectQuery` result, and that result is classified as the claim states:
input not found names the input selector; an exception during text entry
yields an `Unexpected error` reason; submit not found names the submit
selector; an exception during submission yields an `Unexpected error`
reason; and otherwise the reply is `{success: true}`. -/
theorem injectQuery_replies (page : PageEnv)
    (query inputSelector submitSelector : String) :
    (onMessageResponses page
      (ContentInMsg.injectQueryMsg query inputSelector submitSelector)).length = 1 ∧
    onMessageResponses page
        (ContentInMsg.injectQueryMsg query inputSelector submitSelector) =
      [ContentOutMsg.response (injectQuery page query inputSelector submitSelector)] ∧
    (page.inputEl = none →
      injectQuery page query inputSelector submitSelector =
        { success := false,
          error := some ("Input element not found: " ++ inputSelector) }) ∧
    (∀ e, page.inputEl ≠ none → page.enterTextResult = Except.error e →
      injectQuery page query inputSelector submitSelector =
        { success := false, error := some ("Unexpected error: " ++ e) }) ∧
    (page.inputEl ≠ none → page.enterTextResult = Except.ok () →
      page.submitEl = none →
      injectQuery page query inputSelector submitSelector =
        { success := false,
          error := some ("Submit button not found: " ++ submitSelector) }) ∧
    (∀ e, page.inputEl ≠ none → page.enterTextResult = Except.ok () →
      page.submitEl ≠ none → page.clickResult = Except.error e →
      injectQuery page query inputSelector submitSelector =
        { success := false, error := some ("Unexpected error: " ++ e) }) ∧
    (page.inputEl ≠ none → page.enterTextResult = Except.ok () →
      page.submitEl ≠ none → page.clickResult = Except.ok () →
      injectQuery page query inputSelector submitSelector =
        { success := true, error := none }) := by
  obtain ⟨iEl, textRes, sEl, clickRes⟩ := page
  refine ⟨rfl, rfl, ?_, ?_, ?_, ?_, ?_⟩
  · intro h
    dsimp only at h
    subst h
    rfl
  · intro e hne het
    dsimp only at hne het
    cases iEl with
    | none => exact absurd rfl hne
    | some u => subst het; rfl
  · intro hne het hs
    dsimp only at hne het hs
    cases iEl with
    | none => exact absurd rfl hne
    | some u => subst het; subst hs; rfl
  · intro e hne het hsne hc
    dsimp only at hne het hsne hc
    cases iEl with
    | none => exact absurd rfl hne
    | some u =>
      cases sEl with
      | none => exact absurd rfl hsne
      | some v => subst het; subst hc; rfl
  · intro hne het hsne hc
    dsimp only at hne het hsne hc
    cases iEl with
    | none => exact absurd rfl hne
    | some u =>
      cases sEl with
      | none => exact absurd rfl hsne
      | some v => subst het; subst hc; rfl

theorem injectQuery_replies_witness :
    onMessageResponses readyPage
        (ContentInMsg.injectQueryMsg ("hi") ("#in") ("#go")) =
      [ContentOutMsg.response (injectQuery readyPage ("hi") ("#in") ("#go"))] ∧
    injectQuery readyPage ("hi") ("#in") ("#go") =
      { success := true, error := none } :=
  ⟨(injectQuery_replies readyPage ("hi") ("#in") ("#go")).2.1,
   (injectQuery_replies readyPage ("hi") ("#in") ("#go")).2.2.2.2.2.2
     (by decide) rfl (by decide) rfl⟩

end LLMSplitter
